import Mathlib

/-!
Shallow embedding of the bookit travel-booking backend:
the booking controller (`bookAppointment`, `cancelAppointment` in the
customer controller) and the business-side `updateAppointmentStatus`,
over the mongoose schemas `Appointment`, `Service`, `Customer`, `User`,
`Business`, together with the client-side pricing logic of
`BookingPage.jsx` (`validatePromoCode`, `handleBooking`).

Document-store ids are modelled as `Nat`, money as `ℚ`, dates as opaque
strings compared for equality (the code compares `new Date(finalDate)`
values for equality), and times of day as `"HH:MM"` strings exactly as
the code stores them.
-/

namespace Bookit

/-- JS `a || b` for an optional string: `undefined` and `""` are falsy. -/
def orString (x : Option String) (d : String) : String :=
  match x with
  | some s => if s = "" then d else s
  | none => d

/-- JS `a || b` for an optional rational number: `undefined` and `0` are falsy. -/
def jsOrQ (x : Option ℚ) (d : ℚ) : ℚ :=
  match x with
  | some v => if v = 0 then d else v
  | none => d

/-- JS `a || b` for an optional integer: `undefined` and `0` are falsy. -/
def jsOrInt (x : Option Int) (d : Int) : Int :=
  match x with
  | some v => if v = 0 then d else v
  | none => d

/-- JS `a || b` for an optional natural number: `undefined` and `0` are falsy. -/
def jsOrNat (x : Option Nat) (d : Nat) : Nat :=
  match x with
  | some v => if v = 0 then d else v
  | none => d

/-- Truthiness of an optional string field (`undefined` and `""` are falsy). -/
def truthyStr (x : Option String) : Option String :=
  match x with
  | some s => if s = "" then none else some s
  | none => none

/-- Two-digit zero padding, as produced by `Date.prototype.toTimeString`. -/
def pad2 (n : Nat) : String :=
  if n < 10 then "0" ++ toString n else toString n

/-- Render a minutes-since-midnight count as an `"HH:MM"` time-of-day string;
the hour is reduced mod 24 exactly as a `Date` renders times. -/
def minutesToHHMM (m : Nat) : String :=
  pad2 (m / 60 % 24) ++ ":" ++ pad2 (m % 60)

def digitVal (c : Char) : Option Nat :=
  if c.isDigit then some (c.toNat - 48) else none

/-- Parse a strict `"HH:MM"` string (as `new Date("2000-01-01T" + s)` accepts)
into minutes since midnight; `none` on anything malformed. -/
def hhmmToMinutes (s : String) : Option Nat :=
  match s.toList with
  | [h1, h2, c, m1, m2] =>
    if c = ':' then
      match digitVal h1, digitVal h2, digitVal m1, digitVal m2 with
      | some a, some b, some d, some e =>
        let h := 10 * a + b
        let m := 10 * d + e
        if h < 24 && m < 60 then some (h * 60 + m) else none
      | _, _, _, _ => none
    else none
  | _ => none

/-- `endTime` as the controller computes it:
`new Date("2000-01-01T" + startTime)` plus `dur` minutes, rendered with
`toTimeString().slice(0, 5)`.  An overflow past midnight wraps (the rendered
string is the time of day of the end instant, on the next calendar day);
an unparseable start yields `"Inval"` (the first 5 chars of `"Invalid Date"`). -/
def computeEndTime (startTime : String) (dur : Nat) : String :=
  match hhmmToMinutes startTime with
  | some m => minutesToHHMM ((m + dur) % 1440)
  | none => "Inval"

/-- `findOneAndUpdate`: update the first element matching `p`, leave the rest. -/
def updateFirst (p : α → Bool) (f : α → α) : List α → List α
  | [] => []
  | x :: xs => if p x then f x :: xs else x :: updateFirst p f xs

/-! ## Data model (mongoose schemas) -/

structure Traveler where
  name : String
  age : Option Int
  deriving DecidableEq

structure User where
  clerkId : String
  name : Option String
  email : String
  deriving DecidableEq

structure Customer where
  ownerClerkId : String
  firstName : Option String
  lastName : Option String
  phone : Option String
  totalBookings : Nat
  deriving DecidableEq

structure Business where
  id : Nat
  ownerClerkId : String
  name : String
  deriving DecidableEq

/-- The `Service` (travel package) schema.  The schema declares
`durationDays` (required) and the embedded promo fields; it declares no
`durationMinutes` path, but the booking controller reads
`service.durationMinutes || 60`, so the field is kept optional here
(always `none` for documents that went through the schema). -/
structure Service where
  id : Nat
  business : Nat
  packageName : String
  price : ℚ
  durationDays : Nat
  durationMinutes : Option Nat
  isActive : Bool
  promoCode : String
  promoDiscount : ℚ
  promoCodeActive : Bool
  deriving DecidableEq

/-- The unified `Appointment` booking document. -/
structure Appointment where
  id : Nat
  businessId : Nat
  serviceId : Nat
  customerClerkId : String
  appointmentDate : String
  startTime : Option String
  endTime : Option String
  numberOfTravelers : Option Int
  travelers : Option (List Traveler)
  status : String
  customerName : String
  customerEmail : String
  customerPhone : Option String
  subtotal : Option ℚ
  promoCode : Option String
  discount : ℚ
  totalPrice : ℚ
  notes : String
  cancelledAt : Option Nat
  cancelledBy : Option String
  cancellationReason : Option String
  deriving DecidableEq

structure Store where
  users : List User
  customers : List Customer
  businesses : List Business
  services : List Service
  appointments : List Appointment
  deriving DecidableEq

/-- Raw request body of the booking endpoint (all fields optional,
exactly the destructured superset in the controller). -/
structure BookingRequest where
  businessId : Option Nat
  agencyId : Option Nat
  serviceId : Option Nat
  packageId : Option Nat
  appointmentDate : Option String
  departureDate : Option String
  startTime : Option String
  notes : Option String
  customerNotes : Option String
  numberOfTravelers : Option Int
  travelers : Option (List Traveler)
  promoCode : Option String
  subtotal : Option ℚ
  discount : Option ℚ
  totalAmount : Option ℚ
  deriving DecidableEq

/-- One store access performed by a request handler, in program order. -/
inductive Access where
  | readUser
  | readCustomer
  | readBusiness
  | readService
  | readAppointment
  | writeAppointment
  | writeCustomer
  deriving DecidableEq

/-- Rejection reasons of the booking endpoint (each corresponds to one
4xx response in the controller). -/
inductive BookError where
  | missingField (which : String)
  | userNotFound
  | businessNotFound
  | serviceNotFound
  | slotConflict
  | validationError
  deriving DecidableEq

structure BookResult where
  outcome : Except BookError Appointment
  store : Store
  log : List Access

/-! ## Booking controller (`bookAppointment`) -/

/-- `agencyId || businessId`. -/
def finalBusinessId (req : BookingRequest) : Option Nat :=
  req.agencyId <|> req.businessId

/-- `packageId || serviceId`. -/
def finalServiceId (req : BookingRequest) : Option Nat :=
  req.packageId <|> req.serviceId

/-- `departureDate || appointmentDate` (empty strings are falsy). -/
def finalDate (req : BookingRequest) : Option String :=
  match truthyStr req.departureDate with
  | some d => some d
  | none => truthyStr req.appointmentDate

/-- `customerNotes || notes || ''`. -/
def finalNotes (req : BookingRequest) : String :=
  orString req.customerNotes (orString req.notes "")

def lookupUser (st : Store) (clerkId : String) : Option User :=
  st.users.find? (fun u => u.clerkId == clerkId)

def lookupCustomer (st : Store) (clerkId : String) : Option Customer :=
  st.customers.find? (fun c => c.ownerClerkId == clerkId)

def lookupBusiness (st : Store) (bid : Nat) : Option Business :=
  st.businesses.find? (fun b => b.id == bid)

/-- `Service.findOne({ _id: finalServiceId, business: finalBusinessId })`. -/
def lookupService (st : Store) (sid bid : Nat) : Option Service :=
  st.services.find? (fun s => s.id == sid && s.business == bid)

/-- The conflict scan's match predicate: same business, same date, string
interval overlap `startTime < newEnd && endTime > newStart`, status in
`{pending, confirmed, in-progress}`.  Documents without a stored
`startTime`/`endTime` (travel bookings) never match the range query. -/
def conflictsWith (a : Appointment) (bid : Nat) (date : String)
    (newStart newEnd : String) : Bool :=
  a.businessId == bid && a.appointmentDate == date &&
  (match a.startTime, a.endTime with
   | some s, some e => decide (s < newEnd) && decide (newStart < e)
   | _, _ => false) &&
  (a.status == "pending" || a.status == "confirmed" || a.status == "in-progress")

/-- Schema defaults materialised by `Appointment.create` on paths the
controller leaves unset on one of its branches. -/
def applyDefaults (a : Appointment) : Appointment :=
  { a with
    numberOfTravelers := some (a.numberOfTravelers.getD 1)
    travelers := some (a.travelers.getD []) }

def statusEnum (s : String) : Bool :=
  s == "pending" || s == "confirmed" || s == "cancelled"

/-- Schema validation run by `Appointment.create`: required non-empty
strings, the `status` enum, `numberOfTravelers` min 1, traveler names
required.  The schema puts no lower bound on `totalPrice`, `subtotal` or
`discount`. -/
def validateAppointment (a : Appointment) : Bool :=
  a.customerName != "" && a.customerEmail != "" && statusEnum a.status &&
  (match a.numberOfTravelers with
   | some n => decide (1 ≤ n)
   | none => true) &&
  (match a.travelers with
   | some ts => ts.all (fun t => t.name != "")
   | none => true)

/-- The `$inc: { totalBookings: 1 }` customer-stats update. -/
def bumpCustomerStats (cs : List Customer) (ownerId : String) : List Customer :=
  updateFirst (fun c => c.ownerClerkId == ownerId)
    (fun c => { c with totalBookings := c.totalBookings + 1 }) cs

/-- `Appointment.create` + populate re-read + conditional customer-stats
update, shared by both branches of the controller. -/
def createAndFinish (st : Store) (customer : Option Customer) (ownerId : String)
    (doc : Appointment) (log : List Access) : BookResult :=
  let doc := applyDefaults doc
  if validateAppointment doc then
    let st1 : Store := { st with appointments := st.appointments ++ [doc] }
    match customer with
    | some _ =>
      ⟨.ok doc,
       { st1 with customers := bumpCustomerStats st1.customers ownerId },
       log ++ [.writeAppointment, .readAppointment, .writeCustomer]⟩
    | none => ⟨.ok doc, st1, log ++ [.writeAppointment, .readAppointment]⟩
  else
    ⟨.error .validationError, st, log ++ [.writeAppointment]⟩

/-- The `appointmentData` object common to both branches. -/
def baseDoc (req : BookingRequest) (user : User) (customer : Option Customer)
    (bid sid : Nat) (date : String) (nextId : Nat) : Appointment :=
  { id := nextId
    businessId := bid
    serviceId := sid
    customerClerkId := user.clerkId
    appointmentDate := date
    startTime := none
    endTime := none
    numberOfTravelers := none
    travelers := none
    status := "pending"
    customerName :=
      match customer with
      | some c => ((orString c.firstName "") ++ " " ++ (orString c.lastName "")).trim
      | none => orString user.name user.email
    customerEmail := user.email
    customerPhone := customer.bind (fun c => c.phone)
    subtotal := none
    promoCode := none
    discount := 0
    totalPrice := 0
    notes := finalNotes req
    cancelledAt := none
    cancelledBy := none
    cancellationReason := none }

/-- `appointmentData` after the travel-booking branch: the pricing fields
are the client-supplied values with `||` fallbacks, no recomputation. -/
def travelDoc (req : BookingRequest) (user : User) (customer : Option Customer)
    (bid sid : Nat) (date : String) (service : Service) (nextId : Nat) : Appointment :=
  { baseDoc req user customer bid sid date nextId with
    numberOfTravelers := some (jsOrInt req.numberOfTravelers 1)
    travelers := some (req.travelers.getD [])
    promoCode := some (orString req.promoCode "")
    totalPrice := jsOrQ req.totalAmount service.price
    subtotal := some (jsOrQ req.subtotal service.price)
    discount := jsOrQ req.discount 0 }

/-- `appointmentData` after the slot-based branch. -/
def slotDoc (req : BookingRequest) (user : User) (customer : Option Customer)
    (bid sid : Nat) (date : String) (service : Service) (nextId : Nat)
    (s endTime : String) : Appointment :=
  { baseDoc req user customer bid sid date nextId with
    startTime := some s
    endTime := some endTime
    totalPrice := service.price }

/-- The part of the controller after all lookups succeeded: branch
selection, pricing and creation.  The slot branch's `if (!startTime)`
treats the empty string as missing (JS falsiness), hence the
`truthyStr` scrutinee. -/
def bookValidated (st : Store) (req : BookingRequest) (user : User)
    (customer : Option Customer) (bid sid : Nat) (date : String)
    (service : Service) (nextId : Nat) : BookResult :=
  let log0 : List Access := [.readUser, .readCustomer, .readBusiness, .readService]
  if req.numberOfTravelers.isSome || req.departureDate.isSome then
    createAndFinish st customer user.clerkId
      (travelDoc req user customer bid sid date service nextId) log0
  else
    match truthyStr req.startTime with
    | none => ⟨.error (.missingField "startTime"), st, log0⟩
    | some s =>
      let endTime := computeEndTime s (jsOrNat service.durationMinutes 60)
      if st.appointments.any (fun a => conflictsWith a bid date s endTime) then
        ⟨.error .slotConflict, st, log0 ++ [.readAppointment]⟩
      else
        createAndFinish st customer user.clerkId
          (slotDoc req user customer bid sid date service nextId s endTime)
          (log0 ++ [.readAppointment])

/-- The booking endpoint `bookAppointment` of the customer controller. -/
def bookAppointment (st : Store) (authUserId : String) (nextId : Nat)
    (req : BookingRequest) : BookResult :=
  match finalBusinessId req, finalServiceId req, finalDate req with
  | some bid, some sid, some date =>
    match lookupUser st authUserId with
    | none => ⟨.error .userNotFound, st, [.readUser]⟩
    | some user =>
      let customer := lookupCustomer st authUserId
      match lookupBusiness st bid with
      | none => ⟨.error .businessNotFound, st, [.readUser, .readCustomer, .readBusiness]⟩
      | some _business =>
        match lookupService st sid bid with
        | none =>
          ⟨.error .serviceNotFound, st,
           [.readUser, .readCustomer, .readBusiness, .readService]⟩
        | some service => bookValidated st req user customer bid sid date service nextId
  | _, _, _ => ⟨.error (.missingField "business/agency ID, service/package ID, date"), st, []⟩

/-! ## Status-transition operations -/

inductive UpdateError where
  | noBusinessProfile
  | invalidStatus
  | notFound
  deriving DecidableEq

inductive CancelError where
  | notFoundOrNotCancellable
  deriving DecidableEq

def lookupOwnerBusiness (st : Store) (ownerClerkId : String) : Option Business :=
  st.businesses.find? (fun b => b.ownerClerkId == ownerClerkId)

/-- The `$set` document built by `updateAppointmentStatus` applied to a
matched appointment.  The controller also sets a `businessNotes` key, but
the `Appointment` schema has no such path (it has `agencyNotes`), so the
mongoose strict mode silently drops it. -/
def applyStatusUpdate (a : Appointment) (status : String) (now : Nat) : Appointment :=
  { a with
    status := status
    cancelledAt := if status == "cancelled" then some now else a.cancelledAt
    cancelledBy := if status == "cancelled" then some "business" else a.cancelledBy }

/-- The `findOneAndUpdate` filter of `updateAppointmentStatus`:
`{ _id: apptId, businessId }`. -/
def updMatch (bid apptId : Nat) (a : Appointment) : Bool :=
  a.id == apptId && a.businessId == bid

/-- Business-side `updateAppointmentStatus` (appointmentController.js):
requires a business profile, validates the requested status against
`{pending, confirmed, cancelled}`, then `findOneAndUpdate` on
`{ _id, businessId }` with no check of the current status. -/
def updateAppointmentStatus (st : Store) (authUserId : String) (status : String)
    (_businessNotes : Option String) (apptId : Nat) (now : Nat) :
    Except UpdateError Appointment × Store :=
  match lookupOwnerBusiness st authUserId with
  | none => (.error .noBusinessProfile, st)
  | some business =>
    if statusEnum status then
      match st.appointments.find? (updMatch business.id apptId) with
      | none => (.error .notFound, st)
      | some a =>
        (.ok (applyStatusUpdate a status now),
         { st with
           appointments :=
             updateFirst (updMatch business.id apptId)
               (fun a0 => applyStatusUpdate a0 status now) st.appointments })
    else (.error .invalidStatus, st)

/-- The `$set` document of the customer-side `cancelAppointment`. -/
def applyCancel (a : Appointment) (reason : Option String) (now : Nat) : Appointment :=
  { a with
    status := "cancelled"
    cancelledAt := some now
    cancelledBy := some "customer"
    cancellationReason := some (orString reason "Cancelled by customer") }

/-- The `findOneAndUpdate` filter of the customer cancel:
`{ _id, customerClerkId, status: { $in: [pending, confirmed] } }`. -/
def cancelMatch (authUserId : String) (apptId : Nat) (a : Appointment) : Bool :=
  a.id == apptId && a.customerClerkId == authUserId &&
  (a.status == "pending" || a.status == "confirmed")

/-- Customer-side `cancelAppointment`: `findOneAndUpdate` on
`{ _id, customerClerkId, status: { $in: [pending, confirmed] } }`;
a non-match (including an already-cancelled reservation) is a 404
"Appointment not found or cannot be cancelled". -/
def cancelAppointment (st : Store) (authUserId : String) (reason : Option String)
    (apptId : Nat) (now : Nat) : Except CancelError Appointment × Store :=
  match st.appointments.find? (cancelMatch authUserId apptId) with
  | none => (.error .notFoundOrNotCancellable, st)
  | some a =>
    (.ok (applyCancel a reason now),
     { st with
       appointments :=
         updateFirst (cancelMatch authUserId apptId)
           (fun a0 => applyCancel a0 reason now) st.appointments })

/-- Any post-creation event touching a reservation or the customer
profiles: the two status-transition endpoints, or an arbitrary external
change of the Customer collection. -/
inductive Op where
  | agencyUpdate (authUserId status : String) (businessNotes : Option String)
      (apptId : Nat) (now : Nat)
  | customerCancel (authUserId : String) (reason : Option String)
      (apptId : Nat) (now : Nat)
  | setCustomers (cs : List Customer)

def applyOp (st : Store) : Op → Store
  | .agencyUpdate auth status notes i now => (updateAppointmentStatus st auth status notes i now).2
  | .customerCancel auth reason i now => (cancelAppointment st auth reason i now).2
  | .setCustomers cs => { st with customers := cs }

def applyOps (st : Store) : List Op → Store
  | [] => st
  | op :: ops => applyOps (applyOp st op) ops

def findApptById (st : Store) (i : Nat) : Option Appointment :=
  st.appointments.find? (fun a => a.id == i)

/-! ## Client-side pricing (BookingPage.jsx) -/

/-- `validatePromoCode` in BookingPage.jsx: the promo discount amount the
client applies — nonzero only when the package's `promoCodeActive` flag
is set, its `promoCode` is nonempty, and the entered code matches it
case-insensitively after trimming. -/
def validatePromoCode (pkg : Service) (code : String) (subtotal : ℚ) : ℚ :=
  if code.trim = "" then 0
  else if pkg.promoCodeActive && pkg.promoCode != "" &&
          pkg.promoCode.toUpper == code.trim.toUpper then
    subtotal * pkg.promoDiscount / 100
  else 0

/-- The travel-booking payload `handleBooking` posts: `subtotal` is
`price * numberOfTravelers` (pricing effect), `discount` the validated
promo amount, `totalAmount` their difference. -/
def handleBookingPayload (aId pId : Nat) (pkg : Service) (depDate : String)
    (n : Nat) (trav : List Traveler) (code : String) (notes : String) :
    BookingRequest :=
  let subtotal : ℚ := pkg.price * n
  let d := validatePromoCode pkg code subtotal
  { businessId := none
    agencyId := some aId
    serviceId := none
    packageId := some pId
    appointmentDate := none
    departureDate := some depDate
    startTime := none
    notes := none
    customerNotes := some notes
    numberOfTravelers := some (n : Int)
    travelers := some trav
    promoCode := some code
    subtotal := some subtotal
    discount := some d
    totalAmount := some (subtotal - d) }

/-! ## Concrete fixtures (used by witnesses and counterexamples) -/

def specUser : User := { clerkId := "u1", name := some "Ali", email := "ali@x.com" }

def specBusiness : Business := { id := 1, ownerClerkId := "boss", name := "Agency" }

/-- A package at price 500 with promo code SAVE20, 20 %, active — the
spec's Scenario A/B package.  `durationMinutes` is `none`, as for every
document of the Service schema (which has no such path). -/
def specService : Service :=
  { id := 2, business := 1, packageName := "Trip", price := 500,
    durationDays := 3, durationMinutes := none, isActive := true,
    promoCode := "SAVE20", promoDiscount := 20, promoCodeActive := true }

def specStore : Store :=
  { users := [specUser], customers := [], businesses := [specBusiness],
    services := [specService], appointments := [] }

/-- An existing confirmed 10:00–11:00 reservation (Scenario C). -/
def confirmedAppt : Appointment :=
  { id := 3, businessId := 1, serviceId := 2, customerClerkId := "other",
    appointmentDate := "2026-03-01", startTime := some "10:00", endTime := some "11:00",
    numberOfTravelers := some 1, travelers := some [], status := "confirmed",
    customerName := "Bob", customerEmail := "b@x", customerPhone := none,
    subtotal := none, promoCode := none, discount := 0, totalPrice := 500, notes := "",
    cancelledAt := none, cancelledBy := none, cancellationReason := none }

/-- An already-cancelled reservation of customer u1 (Scenario E). -/
def cancelledAppt : Appointment :=
  { confirmedAppt with id := 7, status := "cancelled", customerClerkId := "u1" }

def specStoreE : Store := { specStore with appointments := [cancelledAppt] }

/-- A plain slot-based request for 10:30 on the Scenario C date. -/
def slotReq : BookingRequest :=
  { businessId := some 1, agencyId := none, serviceId := some 2, packageId := none,
    appointmentDate := some "2026-03-01", departureDate := none, startTime := some "10:30",
    notes := none, customerNotes := none, numberOfTravelers := none, travelers := none,
    promoCode := none, subtotal := none, discount := none, totalAmount := none }

/-- A slot-based request whose slot starts half an hour before midnight. -/
def lateSlotReq : BookingRequest := { slotReq with startTime := some "23:30" }

/-- A multi-day request carrying client-chosen pricing fields that do not
follow the frontend's formula, with a promo code that matches nothing. -/
def travelReqBogus : BookingRequest :=
  { slotReq with
    startTime := none
    numberOfTravelers := some 2
    travelers := some [{ name := "T", age := some 30 }]
    promoCode := some "WRONG"
    subtotal := some 1000
    discount := some 5
    totalAmount := some 999 }

/-- A multi-day request with a negative client-supplied `totalAmount`. -/
def travelReqNeg : BookingRequest := { travelReqBogus with totalAmount := some (-5) }

/-- Scenario B as the frontend builds it: 2 travelers, promo `"SAVE20"`. -/
def scenarioBReq : BookingRequest :=
  handleBookingPayload 1 2 specService "2026-03-01" 2 [{ name := "T", age := some 30 }]
    "SAVE20" ""

/-- Scenario A as the frontend builds it: 2 travelers, no promo code. -/
def scenarioAReq : BookingRequest :=
  handleBookingPayload 1 2 specService "2026-03-01" 2 [{ name := "T", age := some 30 }] "" ""

/-- Scenario D: a request with neither `packageId` nor `serviceId`. -/
def scenarioDReq : BookingRequest := { slotReq with serviceId := none, packageId := none }

/-- A resolvable request with neither travel fields nor a start time. -/
def noStartReq : BookingRequest := { slotReq with startTime := none }

/-- The store with no business records at all. -/
def specStoreNB : Store := { specStore with businesses := [] }

/-- A pending reservation of customer u1. -/
def pendingAppt : Appointment :=
  { confirmedAppt with id := 4, status := "pending", customerClerkId := "u1" }

def specStoreP : Store := { specStore with appointments := [pendingAppt] }

/-- The reservation created by `bookAppointment specStore "u1" 9 slotReq`. -/
def slotDocW : Appointment :=
  { id := 9, businessId := 1, serviceId := 2, customerClerkId := "u1",
    appointmentDate := "2026-03-01", startTime := some "10:30", endTime := some "11:30",
    numberOfTravelers := some 1, travelers := some [], status := "pending",
    customerName := "Ali", customerEmail := "ali@x.com", customerPhone := none,
    subtotal := none, promoCode := none, discount := 0, totalPrice := 500, notes := "",
    cancelledAt := none, cancelledBy := none, cancellationReason := none }

/-- The reservation created by `bookAppointment specStore "u1" 9 travelReqBogus`. -/
def bogusDoc : Appointment :=
  { slotDocW with
    startTime := none, endTime := none, numberOfTravelers := some 2,
    travelers := some [{ name := "T", age := some 30 }], promoCode := some "WRONG",
    subtotal := some 1000, discount := 5, totalPrice := 999 }

/-- The reservation created by `bookAppointment specStore "u1" 9 scenarioBReq`. -/
def scenarioBDoc : Appointment :=
  { bogusDoc with
    promoCode := some "SAVE20", subtotal := some 1000, discount := 200, totalPrice := 800 }

/-- Fields of a reservation that the status-transition endpoints must not
touch: everything except `status`, agency notes and cancellation metadata. -/
structure FrozenFields where
  id : Nat
  businessId : Nat
  serviceId : Nat
  customerClerkId : String
  appointmentDate : String
  startTime : Option String
  endTime : Option String
  numberOfTravelers : Option Int
  travelers : Option (List Traveler)
  customerName : String
  customerEmail : String
  customerPhone : Option String
  subtotal : Option ℚ
  promoCode : Option String
  discount : ℚ
  totalPrice : ℚ
  notes : String
  deriving DecidableEq

/-- Projection of a reservation onto its status-transition-frozen fields. -/
def frameOf (a : Appointment) : FrozenFields :=
  { id := a.id, businessId := a.businessId, serviceId := a.serviceId,
    customerClerkId := a.customerClerkId, appointmentDate := a.appointmentDate,
    startTime := a.startTime, endTime := a.endTime,
    numberOfTravelers := a.numberOfTravelers, travelers := a.travelers,
    customerName := a.customerName, customerEmail := a.customerEmail,
    customerPhone := a.customerPhone, subtotal := a.subtotal,
    promoCode := a.promoCode, discount := a.discount,
    totalPrice := a.totalPrice, notes := a.notes }

/-! ## Supporting lemmas -/

set_option maxRecDepth 2000 in
theorem pad2_toList : ∀ h : Nat, h < 100 →
    (pad2 h).toList = [Char.ofNat (48 + h / 10), Char.ofNat (48 + h % 10)] := by
  decide

theorem digitVal_ofNat : ∀ d : Nat, d < 10 → digitVal (Char.ofNat (48 + d)) = some d := by
  decide

/-- Rendering minutes-of-day and parsing back is the identity below 24 h. -/
theorem hhmm_roundtrip (k : Nat) (hk : k < 1440) :
    hhmmToMinutes (minutesToHHMM k) = some k := by
  have hdiv : k / 60 < 24 := by omega
  have hmod : k % 60 < 60 := by omega
  have h24 : k / 60 % 24 = k / 60 := Nat.mod_eq_of_lt hdiv
  have h1 := pad2_toList (k / 60) (by omega)
  have h2 := pad2_toList (k % 60) (by omega)
  have hlist : (pad2 (k / 60) ++ ":" ++ pad2 (k % 60)).toList =
      [Char.ofNat (48 + k / 60 / 10), Char.ofNat (48 + k / 60 % 10), ':',
       Char.ofNat (48 + k % 60 / 10), Char.ofNat (48 + k % 60 % 10)] := by
    simp only [String.toList] at h1 h2 ⊢
    simp [String.data_append, h1, h2]
  unfold minutesToHHMM
  rw [h24]
  unfold hhmmToMinutes
  rw [hlist]
  simp only [reduceIte,
    digitVal_ofNat _ (by omega : k / 60 / 10 < 10),
    digitVal_ofNat _ (by omega : k / 60 % 10 < 10),
    digitVal_ofNat _ (by omega : k % 60 / 10 < 10),
    digitVal_ofNat _ (by omega : k % 60 % 10 < 10)]
  have hh : 10 * (k / 60 / 10) + k / 60 % 10 = k / 60 := by omega
  have hm : 10 * (k % 60 / 10) + k % 60 % 10 = k % 60 := by omega
  rw [hh, hm]
  have hcond : (decide (k / 60 < 24) && decide (k % 60 < 60)) = true := by
    simp [hdiv, hmod]
  simp only [hcond, if_true]
  congr 1
  omega

/-- An `updateFirst` whose update function preserves the search key keeps
`find?` stable up to applying the update to the found element. -/
theorem find?_updateFirst (p q : α → Bool) (f : α → α)
    (hq : ∀ x, q (f x) = q x) :
    ∀ (l : List α) (a : α), l.find? q = some a →
      (updateFirst p f l).find? q = some a ∨ (updateFirst p f l).find? q = some (f a) := by
  intro l
  induction l with
  | nil => intro a h; simp [List.find?] at h
  | cons x xs ih =>
    intro a h
    by_cases hx : q x = true
    · rw [List.find?_cons_of_pos _ hx] at h
      cases h
      by_cases hp : p x = true
      · right
        simp only [updateFirst, hp, if_true]
        rw [List.find?_cons_of_pos _ (by rw [hq]; exact hx)]
      · left
        simp only [updateFirst, hp, if_false, Bool.false_eq_true]
        rw [List.find?_cons_of_pos _ hx]
    · have hx' : q x = false := by revert hx; cases q x <;> simp
      rw [List.find?_cons_of_neg _ (by simp [hx'])] at h
      by_cases hp : p x = true
      · simp only [updateFirst, hp, if_true]
        rw [List.find?_cons_of_neg _ (by simp [hq, hx'])]
        -- after replacing the head, the tail is untouched
        rw [h]
        left; rfl
      · simp only [updateFirst, hp, if_false, Bool.false_eq_true]
        rw [List.find?_cons_of_neg _ (by simp [hx'])]
        exact ih a h

/-- `createAndFinish` succeeds only with the defaulted, validated document. -/
theorem createAndFinish_ok {st customer ownerId doc log d}
    (h : (createAndFinish st customer ownerId doc log).outcome = .ok d) :
    d = applyDefaults doc ∧ validateAppointment (applyDefaults doc) = true := by
  unfold createAndFinish at h
  by_cases hv : validateAppointment (applyDefaults doc) = true
  · simp only [hv, if_true] at h
    cases customer <;> simp_all
  · simp only [Bool.not_eq_true] at hv
    simp [hv] at h

/-- On success, `createAndFinish` appends exactly the created document to
the appointment collection. -/
theorem createAndFinish_ok_store {st customer ownerId doc log d}
    (h : (createAndFinish st customer ownerId doc log).outcome = .ok d) :
    (createAndFinish st customer ownerId doc log).store.appointments =
      st.appointments ++ [applyDefaults doc] := by
  unfold createAndFinish at h ⊢
  by_cases hv : validateAppointment (applyDefaults doc) = true
  · simp only [hv, if_true] at h ⊢
    cases customer <;> simp_all
  · simp only [Bool.not_eq_true] at hv
    simp [hv] at h

/-- Master shape lemma: every accepted booking went through one of the two
branches, with all lookups resolved, and the created document is the
corresponding branch document with schema defaults applied. -/
theorem bookAppointment_ok_shape {st auth nextId req doc}
    (h : (bookAppointment st auth nextId req).outcome = .ok doc) :
    ∃ bid sid date user service,
      finalBusinessId req = some bid ∧ finalServiceId req = some sid ∧
      finalDate req = some date ∧
      lookupUser st auth = some user ∧
      (lookupBusiness st bid).isSome = true ∧
      lookupService st sid bid = some service ∧
      validateAppointment doc = true ∧
      ((req.numberOfTravelers.isSome || req.departureDate.isSome) = true ∧
        doc = applyDefaults
          (travelDoc req user (lookupCustomer st auth) bid sid date service nextId) ∨
       (req.numberOfTravelers.isSome || req.departureDate.isSome) = false ∧
        ∃ s, truthyStr req.startTime = some s ∧
          (st.appointments.any (fun a =>
            conflictsWith a bid date s
              (computeEndTime s (jsOrNat service.durationMinutes 60)))) = false ∧
          doc = applyDefaults
            (slotDoc req user (lookupCustomer st auth) bid sid date service nextId s
              (computeEndTime s (jsOrNat service.durationMinutes 60)))) := by
  unfold bookAppointment at h
  split at h
  case h_2 => simp at h
  case h_1 bid sid date hbid hsid hdate =>
    cases hu : lookupUser st auth with
    | none => rw [hu] at h; simp at h
    | some user =>
      rw [hu] at h
      cases hb : lookupBusiness st bid with
      | none => rw [hb] at h; simp at h
      | some business =>
        rw [hb] at h
        cases hs : lookupService st sid bid with
        | none => rw [hs] at h; simp at h
        | some service =>
          rw [hs] at h
          refine ⟨bid, sid, date, user, service, hbid, hsid, hdate, by simp [hu],
            by simp [hb], by simp [hs], ?_⟩
          unfold bookValidated at h
          by_cases htravel : (req.numberOfTravelers.isSome || req.departureDate.isSome) = true
          · simp only [htravel, if_true] at h
            obtain ⟨hdoc, hval⟩ := createAndFinish_ok h
            subst hdoc
            exact ⟨hval, Or.inl ⟨htravel, rfl⟩⟩
          · simp only [Bool.not_eq_true] at htravel
            simp only [htravel, Bool.false_eq_true, if_false] at h
            cases hst : truthyStr req.startTime with
            | none => rw [hst] at h; simp at h
            | some s =>
              rw [hst] at h
              simp only at h
              by_cases hconf : (st.appointments.any (fun a =>
                  conflictsWith a bid date s
                    (computeEndTime s (jsOrNat service.durationMinutes 60)))) = true
              · rw [if_pos hconf] at h; simp at h
              · simp only [Bool.not_eq_true] at hconf
                rw [if_neg (by simp [hconf])] at h
                obtain ⟨hdoc, hval⟩ := createAndFinish_ok h
                subst hdoc
                exact ⟨hval, Or.inr ⟨htravel, s, rfl, hconf, rfl⟩⟩

theorem jsOrQ_some_zero (v : ℚ) : jsOrQ (some v) 0 = v := by
  unfold jsOrQ
  by_cases h : v = 0 <;> simp [h]

theorem jsOrNat_pos (x : Option Nat) : 0 < jsOrNat x 60 := by
  cases x with
  | none => simp [jsOrNat]
  | some v =>
    by_cases h : v = 0 <;> simp [jsOrNat, h]
    omega

theorem updateFirst_map_eq (g : α → β) (p : α → Bool) (f : α → α)
    (hg : ∀ x, g (f x) = g x) : ∀ l : List α, (updateFirst p f l).map g = l.map g := by
  intro l
  induction l with
  | nil => rfl
  | cons x xs ih =>
    by_cases hp : p x = true <;> simp [updateFirst, hp, hg, ih]

/-! ## Claim theorems -/

/-- Claim C6: a booking request lacking the business/agency id, the
service/package id or the date is rejected with a missing-field error and
performs no store access at all; a request that resolves but carries
neither multi-day travel fields nor a `startTime` is rejected with the
missing-field error for the start time. -/
theorem c6_missing_field_rejection
    (st : Store) (auth : String) (nextId : Nat) (req : BookingRequest) :
    (((req.agencyId = none ∧ req.businessId = none) ∨
      (req.packageId = none ∧ req.serviceId = none) ∨
      (truthyStr req.departureDate = none ∧ truthyStr req.appointmentDate = none)) →
      (bookAppointment st auth nextId req).outcome =
        .error (.missingField "business/agency ID, service/package ID, date") ∧
      (bookAppointment st auth nextId req).log = []) ∧
    (∀ bid sid date user business service,
      finalBusinessId req = some bid → finalServiceId req = some sid →
      finalDate req = some date →
      lookupUser st auth = some user → lookupBusiness st bid = some business →
      lookupService st sid bid = some service →
      req.numberOfTravelers = none → req.departureDate = none → req.startTime = none →
      (bookAppointment st auth nextId req).outcome = .error (.missingField "startTime")) := by
  constructor
  · intro hmiss
    have hnone : finalBusinessId req = none ∨ finalServiceId req = none ∨
        finalDate req = none := by
      rcases hmiss with ⟨h1, h2⟩ | ⟨h1, h2⟩ | ⟨h1, h2⟩
      · exact Or.inl (by simp [finalBusinessId, h1, h2])
      · exact Or.inr (Or.inl (by simp [finalServiceId, h1, h2]))
      · exact Or.inr (Or.inr (by simp [finalDate, h1, h2]))
    unfold bookAppointment
    cases hA : finalBusinessId req <;> cases hB : finalServiceId req <;>
      cases hC : finalDate req <;> simp_all
  · intro bid sid date user business service hbid hsid hdate hu hb hs hn hd hst
    unfold bookAppointment
    rw [hbid, hsid, hdate]
    simp only [hu, hb, hs]
    unfold bookValidated
    simp [hn, hd, hst, truthyStr]

/-- Claim C7: an unresolvable agency, an unresolvable package, or a
package not belonging to the agency is rejected with a not-found error
without writing a reservation; every accepted booking's `businessId` and
`serviceId` reference an existing Business and a Service belonging to it. -/
theorem c7_referential_integrity
    (st : Store) (auth : String) (nextId : Nat) (req : BookingRequest) :
    (∀ bid sid date user,
      finalBusinessId req = some bid → finalServiceId req = some sid →
      finalDate req = some date → lookupUser st auth = some user →
      lookupBusiness st bid = none →
      (bookAppointment st auth nextId req).outcome = .error .businessNotFound ∧
      (bookAppointment st auth nextId req).store.appointments = st.appointments) ∧
    (∀ bid sid date user business,
      finalBusinessId req = some bid → finalServiceId req = some sid →
      finalDate req = some date → lookupUser st auth = some user →
      lookupBusiness st bid = some business → lookupService st sid bid = none →
      (bookAppointment st auth nextId req).outcome = .error .serviceNotFound ∧
      (bookAppointment st auth nextId req).store.appointments = st.appointments) ∧
    (∀ doc, (bookAppointment st auth nextId req).outcome = .ok doc →
      st.businesses.any (fun b => b.id == doc.businessId) = true ∧
      st.services.any (fun svc =>
        svc.id == doc.serviceId && svc.business == doc.businessId) = true) := by
  refine ⟨?_, ?_, ?_⟩
  · intro bid sid date user hbid hsid hdate hu hb
    unfold bookAppointment
    rw [hbid, hsid, hdate]
    simp [hu, hb]
  · intro bid sid date user business hbid hsid hdate hu hb hs
    unfold bookAppointment
    rw [hbid, hsid, hdate]
    simp [hu, hb, hs]
  · intro doc hok
    obtain ⟨bid, sid, date, user, service, hbid, hsid, hdate, hu, hbsome, hs, hval, hbr⟩ :=
      bookAppointment_ok_shape hok
    obtain ⟨business, hb⟩ := Option.isSome_iff_exists.mp hbsome
    have hbmem : business ∈ st.businesses := List.mem_of_find?_eq_some hb
    have hbpred := List.find?_some hb
    have hbid_eq : business.id = bid := by
      simpa using hbpred
    have hsmem : service ∈ st.services := List.mem_of_find?_eq_some hs
    have hspred := List.find?_some hs
    have hsid_eq : service.id = sid ∧ service.business = bid := by
      constructor <;> simp_all [Bool.and_eq_true]
    have hdocb : doc.businessId = bid ∧ doc.serviceId = sid := by
      rcases hbr with ⟨_, hdoc⟩ | ⟨_, s, _, _, hdoc⟩ <;>
        subst hdoc <;>
        simp [applyDefaults, travelDoc, slotDoc, baseDoc]
    constructor
    · rw [List.any_eq_true]
      exact ⟨business, hbmem, by simp [hbid_eq, hdocb.1]⟩
    · rw [List.any_eq_true]
      exact ⟨service, hsmem, by simp [hsid_eq.1, hsid_eq.2, hdocb.1, hdocb.2]⟩

/-- Claim C8: every accepted booking is created with status `pending`,
and both status-transition endpoints only ever write a status from
`{pending, confirmed, cancelled}` (the customer cancel always writes
`cancelled`). -/
theorem c8_status_lifecycle :
    (∀ st auth nextId req doc,
      (bookAppointment st auth nextId req).outcome = .ok doc → doc.status = "pending") ∧
    (∀ st auth status bnotes i now a,
      (updateAppointmentStatus st auth status bnotes i now).1 = .ok a →
      statusEnum a.status = true) ∧
    (∀ st auth reason i now a,
      (cancelAppointment st auth reason i now).1 = .ok a → a.status = "cancelled") := by
  refine ⟨?_, ?_, ?_⟩
  · intro st auth nextId req doc hok
    obtain ⟨bid, sid, date, user, service, _, _, _, _, _, _, _, hbr⟩ :=
      bookAppointment_ok_shape hok
    rcases hbr with ⟨_, hdoc⟩ | ⟨_, s, _, _, hdoc⟩ <;>
      subst hdoc <;>
      simp [applyDefaults, travelDoc, slotDoc, baseDoc]
  · intro st auth status bnotes i now a h
    unfold updateAppointmentStatus at h
    cases hb : lookupOwnerBusiness st auth with
    | none => rw [hb] at h; simp at h
    | some business =>
      rw [hb] at h
      by_cases hv : statusEnum status = true
      · simp only [hv, if_true] at h
        cases hf : st.appointments.find? (updMatch business.id i) with
        | none => rw [hf] at h; simp at h
        | some a0 =>
          rw [hf] at h
          simp only [Except.ok.injEq] at h
          subst h
          simpa [applyStatusUpdate] using hv
      · simp only [Bool.not_eq_true] at hv
        simp [hv] at h
  · intro st auth reason i now a h
    unfold cancelAppointment at h
    cases hf : st.appointments.find? (cancelMatch auth i) with
    | none => rw [hf] at h; simp at h
    | some a0 =>
      rw [hf] at h
      simp only [Except.ok.injEq] at h
      subst h
      simp [applyCancel]

theorem frameOf_statusUpdate (a : Appointment) (s : String) (n : Nat) :
    frameOf (applyStatusUpdate a s n) = frameOf a := rfl

theorem frameOf_cancel (a : Appointment) (r : Option String) (n : Nat) :
    frameOf (applyCancel a r n) = frameOf a := rfl

/-- One post-creation operation preserves the frozen fields of every
reservation, as resolved by id. -/
theorem applyOp_frame (op : Op) (st : Store) (i : Nat) (a : Appointment)
    (h : findApptById st i = some a) :
    ∃ a1, findApptById (applyOp st op) i = some a1 ∧ frameOf a1 = frameOf a := by
  cases op with
  | setCustomers cs => exact ⟨a, h, rfl⟩
  | agencyUpdate auth status notes j now =>
    show ∃ a1, findApptById (updateAppointmentStatus st auth status notes j now).2 i
        = some a1 ∧ frameOf a1 = frameOf a
    unfold updateAppointmentStatus
    cases hlb : lookupOwnerBusiness st auth with
    | none => exact ⟨a, h, rfl⟩
    | some business =>
      by_cases hv : statusEnum status = true
      · simp only [hv, if_true]
        cases hf : st.appointments.find? (updMatch business.id j) with
        | none => exact ⟨a, h, rfl⟩
        | some a0 =>
          have hq : ∀ x : Appointment,
              ((applyStatusUpdate x status now).id == i) = (x.id == i) := fun _ => rfl
          rcases find?_updateFirst (updMatch business.id j) (fun x => x.id == i)
              (fun x => applyStatusUpdate x status now) hq st.appointments a h with hc | hc
          · exact ⟨a, hc, rfl⟩
          · exact ⟨applyStatusUpdate a status now, hc, frameOf_statusUpdate a status now⟩
      · simp only [Bool.not_eq_true] at hv
        simp only [hv, Bool.false_eq_true, if_false]
        exact ⟨a, h, rfl⟩
  | customerCancel auth reason j now =>
    show ∃ a1, findApptById (cancelAppointment st auth reason j now).2 i
        = some a1 ∧ frameOf a1 = frameOf a
    unfold cancelAppointment
    cases hf : st.appointments.find? (cancelMatch auth j) with
    | none => exact ⟨a, h, rfl⟩
    | some a0 =>
      have hq : ∀ x : Appointment,
          ((applyCancel x reason now).id == i) = (x.id == i) := fun _ => rfl
      rcases find?_updateFirst (cancelMatch auth j) (fun x => x.id == i)
          (fun x => applyCancel x reason now) hq st.appointments a h with hc | hc
      · exact ⟨a, hc, rfl⟩
      · exact ⟨applyCancel a reason now, hc, frameOf_cancel a reason now⟩

/-- Claim C9: through any sequence of agency status updates, customer
cancels and arbitrary external changes of the Customer collection, a
reservation re-resolved by id keeps its denormalized customer identity
fields and every field other than status, agency notes and cancellation
metadata, exactly as captured at creation. -/
theorem c9_frame_preservation (ops : List Op) (st : Store) (i : Nat) (a : Appointment)
    (h : findApptById st i = some a) :
    (findApptById (applyOps st ops) i).map frameOf = some (frameOf a) := by
  induction ops generalizing st a with
  | nil => simp [applyOps, h]
  | cons op ops ih =>
    obtain ⟨a1, h1, hf⟩ := applyOp_frame op st i a h
    have htail := ih (applyOp st op) a1 h1
    rw [hf] at htail
    exact htail

/-- Witness for C9: a confirm, a wholesale replacement of the Customer
collection, and a customer cancel leave the reservation's frozen fields
as at creation. -/
theorem c9_witness :
    (findApptById
      (applyOps specStoreP
        [Op.agencyUpdate "boss" "confirmed" none 4 5,
         Op.setCustomers [],
         Op.customerCancel "u1" (some "busy") 4 6]) 4).map frameOf =
      some (frameOf pendingAppt) :=
  c9_frame_preservation
    [Op.agencyUpdate "boss" "confirmed" none 4 5,
     Op.setCustomers [],
     Op.customerCancel "u1" (some "busy") 4 6]
    specStoreP 4 pendingAppt (by with_unfolding_all rfl)

/-- Counterexample to claim C5 as stated: the agency status update has no
guard on the current status, so a reservation already `cancelled` is moved
to `confirmed` — both the returned and the persisted reservation leave the
`cancelled` state. -/
theorem c5_counterexample :
    (findApptById specStoreE 7).map (fun a => a.status) = some "cancelled" ∧
    (updateAppointmentStatus specStoreE "boss" "confirmed" none 7 5).1.toOption.map
      (fun a => a.status) = some "confirmed" ∧
    (findApptById (updateAppointmentStatus specStoreE "boss" "confirmed" none 7 5).2 7).map
      (fun a => a.status) = some "confirmed" := by
  refine ⟨?_, ?_, ?_⟩ <;> with_unfolding_all rfl

/-- Claim C5 (amended): the customer cancel endpoint cannot act on an
already-cancelled reservation — its filter requires status `pending` or
`confirmed`, so the call is rejected (with the combined
not-found-or-not-cancellable 404, not a distinct invalid-transition
error) and the store is unchanged.  The agency status update carries no
such guard (see the counterexample). -/
theorem c5_customer_cancel_terminal (st : Store) (auth : String)
    (reason : Option String) (i now : Nat)
    (hall : ∀ a ∈ st.appointments, a.id = i → a.status = "cancelled") :
    (cancelAppointment st auth reason i now).1 = .error .notFoundOrNotCancellable ∧
    (cancelAppointment st auth reason i now).2 = st := by
  have hnone : st.appointments.find? (cancelMatch auth i) = none := by
    rw [List.find?_eq_none]
    intro a ha
    by_cases hid : a.id = i
    · have hst := hall a ha hid
      simp [cancelMatch, hst]
    · simp [cancelMatch, hid]
  unfold cancelAppointment
  rw [hnone]
  exact ⟨rfl, rfl⟩

/-- Witness for C5 (amended): Scenario E — cancelling the already-cancelled
reservation is rejected and changes nothing. -/
theorem c5_witness :
    (cancelAppointment specStoreE "u1" none 7 5).1 = .error .notFoundOrNotCancellable ∧
    (cancelAppointment specStoreE "u1" none 7 5).2 = specStoreE :=
  c5_customer_cancel_terminal specStoreE "u1" none 7 5
    (of_decide_eq_true (by with_unfolding_all rfl))

/-- Counterexample to claim C3 as stated: a multi-day payload with
client-supplied `totalAmount = -5` is accepted, and the persisted
reservation's `totalPrice` is negative (the Appointment schema puts no
lower bound on `totalPrice`). -/
theorem c3_counterexample :
    (bookAppointment specStore "u1" 9 travelReqNeg).outcome.toOption.map
      (fun d => d.totalPrice) = some (-5) ∧
    (bookAppointment specStore "u1" 9 travelReqNeg).outcome.toOption.map
      (fun d => decide (0 ≤ d.totalPrice)) = some false := by
  refine ⟨?_, ?_⟩ <;> with_unfolding_all rfl

/-- Claim C3 (amended): `totalPrice ≥ 0` holds for every accepted booking
whose client-supplied `totalAmount`, if any, is nonnegative (slot-based
bookings always take the service's price, which the Service schema keeps
nonnegative), and the status-transition endpoints never change any
reservation's `totalPrice`; but a multi-day payload with a negative
client-supplied `totalAmount` is persisted negative (see the
counterexample). -/
theorem c3_total_price_conditional (st : Store) :
    (∀ auth nextId req doc,
      (∀ s ∈ st.services, 0 ≤ s.price) →
      (∀ t, req.totalAmount = some t → 0 ≤ t) →
      (bookAppointment st auth nextId req).outcome = .ok doc →
      0 ≤ doc.totalPrice) ∧
    (∀ auth status bnotes i now,
      (updateAppointmentStatus st auth status bnotes i now).2.appointments.map
        (fun a => a.totalPrice) = st.appointments.map (fun a => a.totalPrice)) ∧
    (∀ auth reason i now,
      (cancelAppointment st auth reason i now).2.appointments.map
        (fun a => a.totalPrice) = st.appointments.map (fun a => a.totalPrice)) := by
  refine ⟨?_, ?_, ?_⟩
  · intro auth nextId req doc hprices htotal hok
    obtain ⟨bid, sid, date, user, service, hbid, hsid, hdate, hu, hbsome, hs, hval, hbr⟩ :=
      bookAppointment_ok_shape hok
    have hsvc_price : 0 ≤ service.price :=
      hprices service (List.mem_of_find?_eq_some hs)
    rcases hbr with ⟨_, hdoc⟩ | ⟨_, s, _, _, hdoc⟩
    · subst hdoc
      have : (applyDefaults
          (travelDoc req user (lookupCustomer st auth) bid sid date service nextId)).totalPrice
          = jsOrQ req.totalAmount service.price := by
        simp [applyDefaults, travelDoc, baseDoc]
      rw [this]
      cases hta : req.totalAmount with
      | none => simpa [jsOrQ] using hsvc_price
      | some t =>
        by_cases ht0 : t = 0
        · simpa [jsOrQ, ht0] using hsvc_price
        · simpa [jsOrQ, ht0] using htotal t hta
    · subst hdoc
      simpa [applyDefaults, slotDoc, baseDoc] using hsvc_price
  · intro auth status bnotes i now
    unfold updateAppointmentStatus
    cases hlb : lookupOwnerBusiness st auth with
    | none => rfl
    | some business =>
      by_cases hv : statusEnum status = true
      · simp only [hv, if_true]
        cases hf : st.appointments.find? (updMatch business.id i) with
        | none => rfl
        | some a0 =>
          show (updateFirst (updMatch business.id i)
              (fun a0 => applyStatusUpdate a0 status now) st.appointments).map
              (fun a => a.totalPrice) = st.appointments.map (fun a => a.totalPrice)
          exact updateFirst_map_eq (fun a : Appointment => a.totalPrice)
            (updMatch business.id i) (fun a0 => applyStatusUpdate a0 status now)
            (fun _ => rfl) st.appointments
      · simp only [Bool.not_eq_true] at hv
        simp only [hv, Bool.false_eq_true, if_false]
  · intro auth reason i now
    unfold cancelAppointment
    cases hf : st.appointments.find? (cancelMatch auth i) with
    | none => rfl
    | some a0 =>
      show (updateFirst (cancelMatch auth i)
          (fun a0 => applyCancel a0 reason now) st.appointments).map
          (fun a => a.totalPrice) = st.appointments.map (fun a => a.totalPrice)
      exact updateFirst_map_eq (fun a : Appointment => a.totalPrice)
        (cancelMatch auth i) (fun a0 => applyCancel a0 reason now)
        (fun _ => rfl) st.appointments

/-- Witness for C3 (amended): a concrete accepted slot booking has a
nonnegative price, and concrete update/cancel calls leave every persisted
`totalPrice` unchanged. -/
theorem c3_witness :
    (0 : ℚ) ≤ slotDocW.totalPrice ∧
    (updateAppointmentStatus specStoreE "boss" "confirmed" none 7 5).2.appointments.map
      (fun a => a.totalPrice) = specStoreE.appointments.map (fun a => a.totalPrice) ∧
    (cancelAppointment specStoreP "u1" none 4 5).2.appointments.map
      (fun a => a.totalPrice) = specStoreP.appointments.map (fun a => a.totalPrice) :=
  ⟨(c3_total_price_conditional specStore).1 "u1" 9 slotReq slotDocW
      (of_decide_eq_true (by with_unfolding_all rfl))
      (fun t h => by simp [slotReq] at h)
      (by with_unfolding_all rfl),
   (c3_total_price_conditional specStoreE).2.1 "boss" "confirmed" none 7 5,
   (c3_total_price_conditional specStoreP).2.2 "u1" none 4 5⟩

/-- Counterexample to claim C4 as stated: an accepted slot booking with
`startTime = "23:30"` and the default 60-minute duration gets
`endTime = "00:30"` — a time of day 1380 minutes before the start, not
`startTime + duration` within the same calendar day, and `startTime <
endTime` fails. -/
theorem c4_counterexample :
    (bookAppointment specStore "u1" 9 lateSlotReq).outcome.toOption.map
      (fun d => (d.startTime, d.endTime)) = some (some "23:30", some "00:30") ∧
    hhmmToMinutes "23:30" = some 1410 ∧
    hhmmToMinutes "00:30" = some 30 ∧
    (30 : Nat) < 1410 ∧ (30 : Nat) ≠ 1410 + 60 := by
  refine ⟨?_, ?_, ?_, ?_, ?_⟩
  · with_unfolding_all rfl
  · with_unfolding_all rfl
  · with_unfolding_all rfl
  · omega
  · omega

/-- Claim C4 (amended): an accepted slot booking stores
`endTime = (startTime + duration) mod 24 h` rendered as `"HH:MM"`, with
the duration defaulting to 60 minutes when the package duration is unset;
whenever `startTime + duration` stays below 24:00 this equals exactly
`startTime + duration`, which is strictly after `startTime` — but a slot
reaching past midnight wraps to the next day (see the counterexample). -/
theorem c4_end_time (st : Store) (auth : String) (nextId : Nat) (req : BookingRequest)
    (bid sid : Nat) (s : String) (m : Nat) (service : Service) (doc : Appointment)
    (hbid : finalBusinessId req = some bid) (hsid : finalServiceId req = some sid)
    (hs : lookupService st sid bid = some service)
    (hn : req.numberOfTravelers = none) (hd : req.departureDate = none)
    (hst : req.startTime = some s) (hm : hhmmToMinutes s = some m)
    (hok : (bookAppointment st auth nextId req).outcome = .ok doc) :
    doc.startTime = some s ∧
    doc.endTime = some (minutesToHHMM ((m + jsOrNat service.durationMinutes 60) % 1440)) ∧
    0 < jsOrNat service.durationMinutes 60 ∧
    (m + jsOrNat service.durationMinutes 60 < 1440 →
      doc.endTime.bind hhmmToMinutes = some (m + jsOrNat service.durationMinutes 60) ∧
      m < m + jsOrNat service.durationMinutes 60) := by
  obtain ⟨bid', sid', date, user, service', hbid', hsid', hdate', hu', hbsome', hs', hval, hbr⟩ :=
    bookAppointment_ok_shape hok
  have hb2 : bid = bid' := Option.some.inj (hbid.symm.trans hbid')
  subst hb2
  have hs2 : sid = sid' := Option.some.inj (hsid.symm.trans hsid')
  subst hs2
  have hsvc : service = service' := Option.some.inj (hs.symm.trans hs')
  subst hsvc
  rcases hbr with ⟨htrue, _⟩ | ⟨_, s', hs'', _, hdoc⟩
  · rw [hn, hd] at htrue
    exact absurd htrue (by simp)
  · have hs_ne : s ≠ "" := by
      intro he
      rw [he] at hm
      have h0 : hhmmToMinutes "" = none := by with_unfolding_all rfl
      rw [h0] at hm
      exact Option.noConfusion hm
    have hst' : truthyStr req.startTime = some s := by
      simp [truthyStr, hst, hs_ne]
    have hss : s = s' := Option.some.inj (hst'.symm.trans hs'')
    subst hss
    subst hdoc
    have hend : computeEndTime s (jsOrNat service.durationMinutes 60) =
        minutesToHHMM ((m + jsOrNat service.durationMinutes 60) % 1440) := by
      unfold computeEndTime
      rw [hm]
    refine ⟨by simp [applyDefaults, slotDoc, baseDoc],
      by simp [applyDefaults, slotDoc, baseDoc, hend], jsOrNat_pos _, ?_⟩
    intro hlt
    have hmod : (m + jsOrNat service.durationMinutes 60) % 1440 =
        m + jsOrNat service.durationMinutes 60 := Nat.mod_eq_of_lt hlt
    constructor
    · have : (applyDefaults (slotDoc req user (lookupCustomer st auth) bid sid date
          service nextId s (computeEndTime s (jsOrNat service.durationMinutes 60)))).endTime =
          some (minutesToHHMM (m + jsOrNat service.durationMinutes 60)) := by
        simp [applyDefaults, slotDoc, baseDoc, hend, hmod]
      rw [this]
      simpa using hhmm_roundtrip _ hlt
    · have := jsOrNat_pos service.durationMinutes
      omega

/-- Witness for C4 (amended): the accepted 10:30 request gets end time
11:30 — exactly 60 minutes later, within the same day and after the start. -/
theorem c4_witness :
    slotDocW.startTime = some "10:30" ∧
    slotDocW.endTime =
      some (minutesToHHMM ((630 + jsOrNat specService.durationMinutes 60) % 1440)) ∧
    slotDocW.endTime.bind hhmmToMinutes =
      some (630 + jsOrNat specService.durationMinutes 60) ∧
    (630 : Nat) < 630 + jsOrNat specService.durationMinutes 60 :=
  have h := c4_end_time specStore "u1" 9 slotReq 1 2 "10:30" 630 specService slotDocW
    (by with_unfolding_all rfl) (by with_unfolding_all rfl) (by with_unfolding_all rfl)
    (by with_unfolding_all rfl) (by with_unfolding_all rfl) (by with_unfolding_all rfl)
    (by with_unfolding_all rfl) (by with_unfolding_all rfl)
  have hlt : 630 + jsOrNat specService.durationMinutes 60 < 1440 :=
    of_decide_eq_true (by with_unfolding_all rfl)
  ⟨h.1, h.2.1, (h.2.2.2 hlt).1, (h.2.2.2 hlt).2⟩

/-- The client promo validation either applies no discount, or applies
`subtotal * promoDiscount / 100` and then the package's promo is active,
nonempty, and matches the entered code case-insensitively after trimming. -/
theorem validatePromoCode_cases (pkg : Service) (code : String) (S : ℚ) :
    validatePromoCode pkg code S = 0 ∨
    (validatePromoCode pkg code S = S * pkg.promoDiscount / 100 ∧
     pkg.promoCodeActive = true ∧ pkg.promoCode ≠ "" ∧
     pkg.promoCode.toUpper = code.trim.toUpper) := by
  unfold validatePromoCode
  by_cases h1 : code.trim = ""
  · simp [h1]
  · simp only [h1, if_false]
    by_cases h2 : (pkg.promoCodeActive && pkg.promoCode != "" &&
        (pkg.promoCode.toUpper == code.trim.toUpper)) = true
    · right
      rw [if_pos h2]
      simp only [Bool.and_eq_true, bne_iff_ne, ne_eq, beq_iff_eq] at h2
      exact ⟨rfl, h2.1.1, h2.1.2, h2.2⟩
    · left
      rw [if_neg h2]

/-- Counterexample to claim C1 as stated: a multi-day request carrying
arbitrary client pricing (`totalAmount = 999`, `discount = 5`) and a
non-matching promo code is accepted and persisted verbatim: the stored
total is not `price * travelers - discount` (500·2−5 = 995 ≠ 999), and
the stored discount is positive although the promo code is invalid. -/
theorem c1_counterexample :
    (bookAppointment specStore "u1" 9 travelReqBogus).outcome.toOption.map
      (fun d => (d.totalPrice, d.discount, d.numberOfTravelers, d.promoCode)) =
      some (999, 5, some 2, some "WRONG") ∧
    specService.price = 500 ∧
    ¬ (999 : ℚ) = 500 * 2 - 5 ∧
    (0 : ℚ) < 5 ∧
    ¬ "WRONG".toUpper = specService.promoCode.toUpper := by
  refine ⟨?_, ?_, ?_, ?_, ?_⟩
  · with_unfolding_all rfl
  · with_unfolding_all rfl
  · exact of_decide_eq_true (by with_unfolding_all rfl)
  · exact of_decide_eq_true (by with_unfolding_all rfl)
  · exact of_decide_eq_true (by with_unfolding_all rfl)

/-- Claim C1 (amended): when a multi-day booking request is produced by
the frontend's pricing pipeline (`subtotal = price * travelers`, discount
from `validatePromoCode`, `totalAmount = subtotal - discount`) and the
frontend saw the same package record the server resolves, the persisted
reservation satisfies `totalPrice = price * travelers - discount`, and
`discount > 0` only when the supplied promo code case-insensitively
equals the package's own active promo code.  (The server itself persists
whatever pricing the client sends — see the counterexample.) -/
theorem c1_frontend_pricing (st : Store) (auth : String) (nextId : Nat)
    (aId pId : Nat) (pkg : Service) (depDate notes code : String) (n : Nat)
    (trav : List Traveler) (doc : Appointment)
    (hn : 1 ≤ n)
    (hpd50 : pkg.promoDiscount ≤ 50)
    (hs : lookupService st pId aId = some pkg)
    (hok : (bookAppointment st auth nextId
      (handleBookingPayload aId pId pkg depDate n trav code notes)).outcome = .ok doc) :
    doc.numberOfTravelers = some (n : Int) ∧
    doc.subtotal = some (pkg.price * n) ∧
    doc.totalPrice = pkg.price * n - doc.discount ∧
    (0 < doc.discount →
      pkg.promoCodeActive = true ∧ pkg.promoCode.toUpper = code.trim.toUpper) := by
  obtain ⟨bid', sid', date, user, service', hbid', hsid', hdate', hu', hbsome', hs', hval, hbr⟩ :=
    bookAppointment_ok_shape hok
  have hba : finalBusinessId (handleBookingPayload aId pId pkg depDate n trav code notes) =
      some aId := by
    simp [handleBookingPayload, finalBusinessId]
  have hsa : finalServiceId (handleBookingPayload aId pId pkg depDate n trav code notes) =
      some pId := by
    simp [handleBookingPayload, finalServiceId]
  have hb2 : aId = bid' := Option.some.inj (hba.symm.trans hbid')
  subst hb2
  have hs2 : pId = sid' := Option.some.inj (hsa.symm.trans hsid')
  subst hs2
  have hsvc : pkg = service' := Option.some.inj (hs.symm.trans hs')
  subst hsvc
  rcases hbr with ⟨_, hdoc⟩ | ⟨hfalse, _⟩
  · have hnq : ((n : ℚ) ≠ 0) := by
      have : (0 : ℚ) < (n : ℚ) := by exact_mod_cast Nat.lt_of_lt_of_le Nat.zero_lt_one hn
      exact ne_of_gt this
    have hnum : doc.numberOfTravelers = some (n : Int) := by
      subst hdoc
      have hni : ((n : Int) = 0) = False := by
        simp only [eq_iff_iff, iff_false]
        omega
      simp [applyDefaults, travelDoc, baseDoc, handleBookingPayload, jsOrInt, hni]
    have hdisc : doc.discount =
        validatePromoCode pkg code (pkg.price * n) := by
      subst hdoc
      simp [applyDefaults, travelDoc, baseDoc, handleBookingPayload, jsOrQ_some_zero]
    have hsub : doc.subtotal = some (pkg.price * n) := by
      subst hdoc
      simp only [applyDefaults, travelDoc, baseDoc, handleBookingPayload]
      by_cases hz : pkg.price * (n : ℚ) = 0
      · have hp0 : pkg.price = 0 := by
          rcases mul_eq_zero.mp hz with h | h
          · exact h
          · exact absurd h hnq
        simp [jsOrQ, hz, hp0]
      · simp [jsOrQ, hz]
    have htp : doc.totalPrice =
        jsOrQ (some (pkg.price * n - validatePromoCode pkg code (pkg.price * n)))
          pkg.price := by
      subst hdoc
      simp [applyDefaults, travelDoc, baseDoc, handleBookingPayload]
    refine ⟨hnum, hsub, ?_, ?_⟩
    · rw [htp, hdisc]
      by_cases hz : pkg.price * (n : ℚ) - validatePromoCode pkg code (pkg.price * n) = 0
      · have hS0 : pkg.price * (n : ℚ) = 0 := by
          rcases validatePromoCode_cases pkg code (pkg.price * n) with hd0 | ⟨hdf, _, _, _⟩
          · rw [hd0] at hz
            linarith
          · rw [hdf] at hz
            have h100 : pkg.price * (n : ℚ) * (100 - pkg.promoDiscount) = 0 := by
              field_simp at hz
              nlinarith [hz]
            rcases mul_eq_zero.mp h100 with h | h
            · exact h
            · exfalso
              have : pkg.promoDiscount = 100 := by linarith
              linarith
        have hp0 : pkg.price = 0 := by
          rcases mul_eq_zero.mp hS0 with h | h
          · exact h
          · exact absurd h hnq
        have hd0 : validatePromoCode pkg code (pkg.price * n) = 0 := by
          rcases validatePromoCode_cases pkg code (pkg.price * n) with hd0 | ⟨hdf, _, _, _⟩
          · exact hd0
          · rw [hdf, hS0]
            ring
        simp [jsOrQ, hz, hp0, hd0, hS0]
      · simp [jsOrQ, hz]
    · intro hpos
      rw [hdisc] at hpos
      rcases validatePromoCode_cases pkg code (pkg.price * n) with hd0 | ⟨_, hact, _, hup⟩
      · rw [hd0] at hpos
        exact absurd hpos (by norm_num)
      · exact ⟨hact, hup⟩
  · rw [show (handleBookingPayload aId pId pkg depDate n trav code notes).numberOfTravelers
        = some (n : Int) from rfl] at hfalse
    simp at hfalse

/-- Witness for C1 (amended): Scenario B — price 500, two travelers,
active promo SAVE20 at 20 % — is accepted with subtotal 1000, discount
200, total 800, satisfying `totalPrice = price * travelers - discount`
with a matching promo code. -/
theorem c1_witness :
    (bookAppointment specStore "u1" 9
      (handleBookingPayload 1 2 specService "2026-03-01" 2
        [{ name := "T", age := some 30 }] "SAVE20" "")).outcome = .ok scenarioBDoc ∧
    scenarioBDoc.numberOfTravelers = some ((2 : Nat) : Int) ∧
    scenarioBDoc.subtotal = some (specService.price * ((2 : Nat) : ℚ)) ∧
    scenarioBDoc.totalPrice =
      specService.price * ((2 : Nat) : ℚ) - scenarioBDoc.discount ∧
    scenarioBDoc.totalPrice = 800 ∧ scenarioBDoc.discount = 200 ∧
    (0 < scenarioBDoc.discount →
      specService.promoCodeActive = true ∧
      specService.promoCode.toUpper = "SAVE20".trim.toUpper) := by
  have hok : (bookAppointment specStore "u1" 9
      (handleBookingPayload 1 2 specService "2026-03-01" 2
        [{ name := "T", age := some 30 }] "SAVE20" "")).outcome = .ok scenarioBDoc := by
    with_unfolding_all rfl
  have h := c1_frontend_pricing specStore "u1" 9 1 2 specService "2026-03-01" "" "SAVE20" 2
    [{ name := "T", age := some 30 }] scenarioBDoc (by omega)
    (of_decide_eq_true (by with_unfolding_all rfl)) (by with_unfolding_all rfl) hok
  exact ⟨hok, h.1, h.2.1, h.2.2.1, by with_unfolding_all rfl, by with_unfolding_all rfl,
    h.2.2.2⟩

/-- Claim C10: for an accepted multi-day booking, the persisted subtotal,
discount and totalPrice are exactly the client-supplied payload fields
(with `||` fallbacks to `service.price`, `0` and `service.price` when
absent or zero), and the promo code is persisted without validation. -/
theorem c10_client_pricing_passthrough
    (st : Store) (auth : String) (nextId : Nat) (req : BookingRequest)
    (bid sid : Nat) (service : Service) (doc : Appointment)
    (hbid : finalBusinessId req = some bid) (hsid : finalServiceId req = some sid)
    (hs : lookupService st sid bid = some service)
    (htravel : (req.numberOfTravelers.isSome || req.departureDate.isSome) = true)
    (hok : (bookAppointment st auth nextId req).outcome = .ok doc) :
    doc.subtotal = some (jsOrQ req.subtotal service.price) ∧
    doc.discount = jsOrQ req.discount 0 ∧
    doc.totalPrice = jsOrQ req.totalAmount service.price ∧
    doc.promoCode = some (orString req.promoCode "") := by
  obtain ⟨bid', sid', date, user, service', hbid', hsid', hdate', hu', hbsome', hs', hval, hbr⟩ :=
    bookAppointment_ok_shape hok
  have hb2 : bid' = bid := by
    rw [hbid] at hbid'
    exact (Option.some.inj hbid').symm
  subst hb2
  have hs2 : sid' = sid := by
    rw [hsid] at hsid'
    exact (Option.some.inj hsid').symm
  subst hs2
  have hsvc : service' = service := by
    rw [hs] at hs'
    exact (Option.some.inj hs').symm
  subst hsvc
  rcases hbr with ⟨_, hdoc⟩ | ⟨hfalse, _⟩
  · subst hdoc
    refine ⟨?_, ?_, ?_, ?_⟩ <;> simp [applyDefaults, travelDoc, baseDoc]
  · rw [htravel] at hfalse
    exact absurd hfalse (by simp)

/-- Witness for C10: the bogus-priced request is accepted and its
client-chosen pricing fields are persisted verbatim. -/
theorem c10_witness :
    bogusDoc.subtotal = some (jsOrQ travelReqBogus.subtotal specService.price) ∧
    bogusDoc.discount = jsOrQ travelReqBogus.discount 0 ∧
    bogusDoc.totalPrice = jsOrQ travelReqBogus.totalAmount specService.price ∧
    bogusDoc.promoCode = some (orString travelReqBogus.promoCode "") :=
  c10_client_pricing_passthrough specStore "u1" 9 travelReqBogus 1 2 specService bogusDoc
    (by with_unfolding_all rfl) (by with_unfolding_all rfl) (by with_unfolding_all rfl)
    (by with_unfolding_all rfl) (by with_unfolding_all rfl)

/-- Witness for C6: Scenario D is rejected with zero store accesses, and a
resolvable request with no travel fields and no start time is rejected
with the start-time missing-field error. -/
theorem c6_witness :
    ((bookAppointment specStore "u1" 9 scenarioDReq).outcome =
      .error (.missingField "business/agency ID, service/package ID, date") ∧
     (bookAppointment specStore "u1" 9 scenarioDReq).log = []) ∧
    (bookAppointment specStore "u1" 9 noStartReq).outcome =
      .error (.missingField "startTime") :=
  ⟨(c6_missing_field_rejection specStore "u1" 9 scenarioDReq).1
      (Or.inr (Or.inl ⟨by with_unfolding_all rfl, by with_unfolding_all rfl⟩)),
   (c6_missing_field_rejection specStore "u1" 9 noStartReq).2 1 2 "2026-03-01"
      specUser specBusiness specService (by with_unfolding_all rfl)
      (by with_unfolding_all rfl) (by with_unfolding_all rfl) (by with_unfolding_all rfl)
      (by with_unfolding_all rfl) (by with_unfolding_all rfl) (by with_unfolding_all rfl)
      (by with_unfolding_all rfl) (by with_unfolding_all rfl)⟩

/-- Witness for C7: a booking against an absent business is rejected with
the not-found error and writes nothing, and an accepted booking references
an existing business and one of its services. -/
theorem c7_witness :
    ((bookAppointment specStoreNB "u1" 9 slotReq).outcome = .error .businessNotFound ∧
     (bookAppointment specStoreNB "u1" 9 slotReq).store.appointments =
       specStoreNB.appointments) ∧
    (specStore.businesses.any (fun b => b.id == slotDocW.businessId) = true ∧
     specStore.services.any (fun svc =>
       svc.id == slotDocW.serviceId && svc.business == slotDocW.businessId) = true) :=
  ⟨(c7_referential_integrity specStoreNB "u1" 9 slotReq).1 1 2 "2026-03-01" specUser
      (by with_unfolding_all rfl) (by with_unfolding_all rfl) (by with_unfolding_all rfl)
      (by with_unfolding_all rfl) (by with_unfolding_all rfl),
   (c7_referential_integrity specStore "u1" 9 slotReq).2.2 slotDocW
      (by with_unfolding_all rfl)⟩

/-- Witness for C8: a concrete accepted booking has status `pending`, a
concrete agency update writes a status in the enum, and a concrete
customer cancel writes `cancelled`. -/
theorem c8_witness :
    slotDocW.status = "pending" ∧
    statusEnum (applyStatusUpdate cancelledAppt "confirmed" 5).status = true ∧
    (applyCancel pendingAppt none 5).status = "cancelled" :=
  ⟨c8_status_lifecycle.1 specStore "u1" 9 slotReq slotDocW (by with_unfolding_all rfl),
   c8_status_lifecycle.2.1 specStoreE "boss" "confirmed" none 7 5
      (applyStatusUpdate cancelledAppt "confirmed" 5) (by with_unfolding_all rfl),
   c8_status_lifecycle.2.2 specStoreP "u1" none 4 5
      (applyCancel pendingAppt none 5) (by with_unfolding_all rfl)⟩

end Bookit
